import Mathlib

/-!
Verification embedding of the request-cache-retry pipeline of
`src/services/geminiService.ts`.

JavaScript effects are made explicit: `localStorage` becomes an association
list of key/value cells, the in-memory `audioCache` Map becomes an
association list, a thrown exception becomes `Except.error`, and the
external provider (`GoogleGenAI.models.generateContent`) becomes an oracle
indexed by the number of provider calls made so far, so that call counts
and retry traces are observable in the model.
-/

/-- Errors observable in the service code.  `api st` is a provider error
carrying the optional numeric `status` field inspected by `retryRequest`;
`parseFailure` is a `JSON.parse` exception; `quotaExceeded` is the
exception thrown by `localStorage.setItem` when storage quota is
exhausted; `typeFailure` is the TypeError thrown when
`response.candidates[0]` is accessed on a response without candidates;
`invalidCharacter` is the exception `btoa` throws on a code point above
255.  Only `api` errors have a defined `status`. -/
inductive JsError where
  | api (status : Option Nat)
  | parseFailure
  | quotaExceeded
  | typeFailure
  | invalidCharacter
deriving DecidableEq, Repr

/-- The `error.status` field read by `retryRequest`: defined (only) on
provider errors. -/
def errStatus : JsError → Option Nat
  | .api st => st
  | _ => none

/-- The condition `error.status === 429 || error.status === 503 ||
error.status === 500` from `retryRequest` (geminiService.ts line 88). -/
def isRetryable (e : JsError) : Bool :=
  errStatus e == some 429 || errStatus e == some 503 || errStatus e == some 500

/-- Trace of one `retryRequest` run: the final outcome, the final state of
the world, the number of times the wrapped thunk was invoked, and the
backoff delays awaited (in order) between successive invocations. -/
structure RunResult (σ α : Type) where
  result : Except JsError α
  state : σ
  calls : Nat
  delays : List Nat
deriving Repr

/-- Embedding of `retryRequest` (geminiService.ts lines 84-93).  The thunk
`fn` is stateful: it consumes and returns the world state `σ`.  On an
error, the guard `retries > 0 && retryable` is rendered by recursion on
`retries`: with no retries left the error is rethrown; otherwise a
retryable error records the current `delay` and recurses with
`retries - 1` and `delay * 2`, while a terminal error is rethrown at
once. -/
def retryRequest {σ α : Type} (fn : σ → Except JsError α × σ) :
    Nat → Nat → σ → RunResult σ α
  | 0, _, s =>
    match fn s with
    | (.ok v, s1) => ⟨.ok v, s1, 1, []⟩
    | (.error e, s1) => ⟨.error e, s1, 1, []⟩
  | retries + 1, delay, s =>
    match fn s with
    | (.ok v, s1) => ⟨.ok v, s1, 1, []⟩
    | (.error e, s1) =>
      if isRetryable e then
        let rest := retryRequest fn retries (delay * 2) s1
        ⟨rest.result, rest.state, rest.calls + 1, delay :: rest.delays⟩
      else ⟨.error e, s1, 1, []⟩

/-- A provider stub for exercising `retryRequest` alone: the world state is
the call counter, and the outcome of call number `n` is `g n`. -/
def oracleFn {α : Type} (g : Nat → Except JsError α) :
    Nat → Except JsError α × Nat :=
  fun n => (g n, n + 1)

/-!
JSON values and browser storage.  `localStorage` stores strings; the
service reads and writes them either raw (image data-URIs) or through the
external builtins `JSON.parse` / `JSON.stringify`.  We model a stored cell
as either `raw s` (a literal string the code never JSON-parses
successfully — e.g. a data-URI or a corrupt entry) or `json j` (a string
whose `JSON.parse` yields the value `j`).  A `JVal.jobj` field list stands
for a JavaScript object in insertion order with pairwise-distinct keys, as
produced by `JSON.parse`.
-/

/-- JSON values (numbers restricted to integers, which covers every value
the service manipulates). -/
inductive JVal where
  | jnull
  | jbool (b : Bool)
  | jnum (n : Int)
  | jstr (s : String)
  | jarr (xs : List JVal)
  | jobj (fields : List (String × JVal))

/-- A `localStorage` cell. -/
inductive StoredVal where
  | raw (s : String)
  | json (j : JVal)

/-- JavaScript truthiness on a parsed JSON value, as used by
`if (cached) return cached;` (null, false, 0 and the empty string are
falsy; arrays and objects are always truthy). -/
def truthy : JVal → Bool
  | .jnull => false
  | .jbool b => b
  | .jnum n => n != 0
  | .jstr s => s != ""
  | .jarr _ => true
  | .jobj _ => true

/-- `JSON.parse` applied to a stored string: a raw/corrupt cell throws
(modelled as `none`), a `json` cell yields its value. -/
def parseStored : StoredVal → Option JVal
  | .raw _ => none
  | .json j => some j

/-- The string-keyed storage map. -/
abbrev Storage := List (String × StoredVal)

/-- `localStorage.getItem`. -/
def Storage.getItem (st : Storage) (k : String) : Option StoredVal :=
  (st.find? (fun kv => kv.1 == k)).map (·.2)

/-- Successful `localStorage.setItem`: overwrite in place, or append. -/
def Storage.setItem (st : Storage) (k : String) (v : StoredVal) : Storage :=
  if st.any (fun kv => kv.1 == k) then
    st.map (fun kv => if kv.1 == k then (k, v) else kv)
  else st ++ [(k, v)]

/-- Embedding of `getCachedData` (geminiService.ts lines 96-106): read the
key and try to `JSON.parse` it; a missing cell, or one whose parse throws,
gives `null`. -/
def getCachedData (st : Storage) (key : String) : Option JVal :=
  match st.getItem key with
  | some data => parseStored data
  | none => none

/-- Collapse the `if (cached) return cached` truthiness test: the cache
path is taken exactly when `getCachedData` produced a truthy value. -/
def truthyHit (o : Option JVal) : Option JVal :=
  match o with
  | some c => if truthy c then some c else none
  | none => none

/-- Own enumerable properties taken by an object spread `{...parsed}`:
an object contributes its fields, an array its index properties, a string
its character properties, and a primitive nothing. -/
def jsObjectSpread : JVal → List (String × JVal)
  | .jobj fs => fs
  | .jarr xs => (xs.enum.map (fun p => (toString p.1, p.2)))
  | .jstr s => (s.toList.enum.map (fun p => (toString p.1, JVal.jstr (String.mk [p.2]))))
  | _ => []

/-- The field list of the object literal spread-with-override
`{ ...parsed, part }`: if a `part` property already exists it keeps its
position and is overwritten, otherwise `part` is appended last. -/
def spreadWithPart (fs : List (String × JVal)) (part : Int) : List (String × JVal) :=
  if fs.any (fun kv => kv.1 == "part") then
    fs.map (fun kv => if kv.1 == "part" then (kv.1, JVal.jnum part) else kv)
  else fs ++ [("part", JVal.jnum part)]

/-- Property lookup on a JSON value (objects only). -/
def getField (j : JVal) (k : String) : Option JVal :=
  match j with
  | .jobj fs => (fs.find? (fun kv => kv.1 == k)).map (·.2)
  | _ => none

/-- Outcome of one provider call `ai.models.generateContent(...)` for the
structured (notes / premium questions) fetchers: success carries
`response.text`, with `none` standing for an undefined or empty text (the
code then falls back to a default literal); failure carries the thrown
error. -/
inductive ProviderResult where
  | ok (text : Option StoredVal)
  | fail (e : JsError)

/-- `JSON.parse(text || default)`: an absent/empty text parses the default
literal; a present text parses or throws (`none`). -/
def parseTextOrDefault (text : Option StoredVal) (default : JVal) : Option JVal :=
  match text with
  | none => some default
  | some sv => parseStored sv

/-- World state threaded through the structured fetchers: the persistent
storage, whether the storage quota is currently exhausted (in which case
`localStorage.setItem` throws), and how many provider calls have been
made. -/
structure SvcState where
  storage : Storage
  quotaExhausted : Bool
  providerCalls : Nat

/-- A notes/questions provider oracle: the outcome of provider call number
`n`, made with the given api key.  The key the code passes is
`process.env.API_KEY`, forwarded unchecked. -/
def ProviderOracle := Option String → Nat → ProviderResult

/-- The cache key `` `note_v11_${subjectId}_${chapterTitle}_${part}` ``. -/
def noteCacheKey (subjectId chapterTitle : String) (part : Int) : String :=
  "note_v11_" ++ subjectId ++ "_" ++ chapterTitle ++ "_" ++ toString part

/-- The async thunk passed to `retryRequest` by `generateChapterNotes`
(geminiService.ts lines 126-144): call the provider, parse
`response.text || '\x7b\x7d'`, build `finalNote = { ...parsed, part }`,
write it to the cache (a quota-exhausted `setItem` throws), and return it. -/
def notesThunk (provider : ProviderOracle) (apiKey : Option String)
    (cacheKey : String) (part : Int) :
    SvcState → Except JsError JVal × SvcState :=
  fun s =>
    let s1 : SvcState := { s with providerCalls := s.providerCalls + 1 }
    match provider apiKey s.providerCalls with
    | .fail e => (.error e, s1)
    | .ok text =>
      match parseTextOrDefault text (.jobj []) with
      | none => (.error .parseFailure, s1)
      | some parsed =>
        let finalNote : JVal := .jobj (spreadWithPart (jsObjectSpread parsed) part)
        if s1.quotaExhausted then (.error .quotaExceeded, s1)
        else (.ok finalNote,
              { s1 with storage := s1.storage.setItem cacheKey (.json finalNote) })

/-- Embedding of `generateChapterNotes` (geminiService.ts lines 109-145):
a truthy parsed cache entry is returned at once; otherwise the provider
call runs under `retryRequest` with the default policy (5 retries, 1000
initial delay). -/
def generateChapterNotes (provider : ProviderOracle) (apiKey : Option String)
    (subjectId chapterTitle : String) (part : Int) (s : SvcState) :
    Except JsError JVal × SvcState :=
  let cacheKey := noteCacheKey subjectId chapterTitle part
  match truthyHit (getCachedData s.storage cacheKey) with
  | some cached => (.ok cached, s)
  | none =>
    let r := retryRequest (notesThunk provider apiKey cacheKey part) 5 1000 s
    (r.result, r.state)

/-- The cache key `` `premium_vault_v16_${subjectId}` ``. -/
def premiumCacheKey (subjectId : String) : String :=
  "premium_vault_v16_" ++ subjectId

/-- The async thunk passed to `retryRequest` by `generatePremiumQuestions`
(geminiService.ts lines 166-186): call the provider, parse
`response.text || '[]'`, write the parsed array to the cache, return it. -/
def premiumThunk (provider : ProviderOracle) (apiKey : Option String)
    (cacheKey : String) : SvcState → Except JsError JVal × SvcState :=
  fun s =>
    let s1 : SvcState := { s with providerCalls := s.providerCalls + 1 }
    match provider apiKey s.providerCalls with
    | .fail e => (.error e, s1)
    | .ok text =>
      match parseTextOrDefault text (.jarr []) with
      | none => (.error .parseFailure, s1)
      | some parsed =>
        if s1.quotaExhausted then (.error .quotaExceeded, s1)
        else (.ok parsed,
              { s1 with storage := s1.storage.setItem cacheKey (.json parsed) })

/-- Embedding of `generatePremiumQuestions` (geminiService.ts lines
147-187). -/
def generatePremiumQuestions (provider : ProviderOracle)
    (apiKey : Option String) (subjectId : String) (s : SvcState) :
    Except JsError JVal × SvcState :=
  let cacheKey := premiumCacheKey subjectId
  match truthyHit (getCachedData s.storage cacheKey) with
  | some cached => (.ok cached, s)
  | none =>
    let r := retryRequest (premiumThunk provider apiKey cacheKey) 5 1000 s
    (r.result, r.state)

/-!
Base64 and the browser builtins `btoa` / `atob`.  `btoa` encodes a string
of Latin-1 code points and throws an InvalidCharacterError when any code
point exceeds 255; `atob` performs the WHATWG forgiving-base64 decode and
throws on malformed input.
-/

/-- The base64 alphabet. -/
def base64Alphabet : List Char :=
  "ABCDEFGHIJKLMNOPQRSTUVWXYZabcdefghijklmnopqrstuvwxyz0123456789+/".toList

/-- Character for a 6-bit value. -/
def b64Char (n : Nat) : Char := base64Alphabet.getD n 'A'

/-- Base64-encode a byte list (with `=` padding). -/
def base64Encode : List Nat → List Char
  | [] => []
  | [b1] => [b64Char (b1 / 4), b64Char (b1 % 4 * 16), '=', '=']
  | [b1, b2] =>
    [b64Char (b1 / 4), b64Char (b1 % 4 * 16 + b2 / 16), b64Char (b2 % 16 * 4), '=']
  | b1 :: b2 :: b3 :: rest =>
    b64Char (b1 / 4) :: b64Char (b1 % 4 * 16 + b2 / 16) ::
    b64Char (b2 % 16 * 4 + b3 / 64) :: b64Char (b3 % 64) :: base64Encode rest

/-- The builtin `btoa`: throws InvalidCharacterError when the argument has
a code point above 255, otherwise base64-encodes its Latin-1 bytes. -/
def btoa (s : String) : Except JsError String :=
  let codes := s.toList.map Char.toNat
  if codes.all (fun c => c < 256) then .ok (String.mk (base64Encode codes))
  else .error .invalidCharacter

/-- 6-bit value of a base64 character (`none` when outside the alphabet,
including `=`). -/
def b64Value (c : Char) : Option Nat := base64Alphabet.findIdx? (fun d => d == c)

/-- Decode groups of 6-bit values into bytes; a final group of one value
(input length 1 mod 4) is malformed. -/
def b64DecodeGroups : List Nat → Option (List Nat)
  | [] => some []
  | [_] => none
  | [v1, v2] => some [v1 * 4 + v2 / 16]
  | [v1, v2, v3] => some [v1 * 4 + v2 / 16, v2 % 16 * 16 + v3 / 4]
  | v1 :: v2 :: v3 :: v4 :: rest =>
    (b64DecodeGroups rest).map
      (fun t => (v1 * 4 + v2 / 16) :: (v2 % 16 * 16 + v3 / 4) :: (v3 % 4 * 64 + v4) :: t)

/-- ASCII whitespace stripped by forgiving-base64. -/
def isB64Whitespace (c : Char) : Bool :=
  c == ' ' || c == '\t' || c == '\n' || c == '\x0d' || c == '\x0c'

/-- Embedding of `decodeBase64` (geminiService.ts lines 218-226): `atob`
(WHATWG forgiving-base64 decode, throwing on malformed input, modelled as
`Except.error`) followed by the `charCodeAt` loop, yielding the byte
list. -/
def decodeBase64 (s : String) : Except JsError (List Nat) :=
  let cs := s.toList.filter (fun c => !isB64Whitespace c)
  let cs :=
    if cs.length % 4 == 0 then
      if cs.reverse.take 2 = ['=', '='] then cs.dropLast.dropLast
      else if cs.reverse.take 1 = ['='] then cs.dropLast
      else cs
    else cs
  match cs.mapM b64Value with
  | none => .error .invalidCharacter
  | some vs =>
    match b64DecodeGroups vs with
    | none => .error .invalidCharacter
    | some bytes => .ok bytes

/-!
The image fetcher.
-/

/-- Outcome of one image provider call: success carries the
`inlineData.data` of each part of `response.candidates[0].content.parts`
(`none` for a part without inline data); `noCandidates` is a response on
which the unguarded access `response.candidates[0].content.parts` throws
a TypeError; failure carries the thrown error. -/
inductive ImgProviderResult where
  | ok (parts : List (Option String))
  | noCandidates
  | fail (e : JsError)

/-- An image provider oracle, indexed like `ProviderOracle`. -/
def ImgProviderOracle := Option String → Nat → ImgProviderResult

/-- An image provider call that does not produce an inline image payload:
it throws (a network/provider error or the TypeError on a response
without candidates), or succeeds with no part carrying inline data. -/
def imgCallNoImage : ImgProviderResult → Prop
  | .ok parts => parts.findSome? id = none
  | .noCandidates => True
  | .fail _ => True

/-- The async thunk passed to `retryRequest` by `generateAestheticImage`
(geminiService.ts lines 195-214): call the provider, scan the parts for
the first `inlineData`, build the data-URI, cache it raw (a
quota-exhausted `setItem` throws) and return it; with no inline part the
thunk resolves to `null`. -/
def imageThunk (provider : ImgProviderOracle) (apiKey : Option String)
    (cacheKey : String) : SvcState → Except JsError (Option String) × SvcState :=
  fun s =>
    let s1 : SvcState := { s with providerCalls := s.providerCalls + 1 }
    match provider apiKey s.providerCalls with
    | .fail e => (.error e, s1)
    | .noCandidates => (.error .typeFailure, s1)
    | .ok parts =>
      match parts.findSome? id with
      | some d =>
        let data := "data:image/png;base64," ++ d
        if s1.quotaExhausted then (.error .quotaExceeded, s1)
        else (.ok (some data),
              { s1 with storage := s1.storage.setItem cacheKey (.raw data) })
      | none => (.ok none, s1)

/-- JavaScript truthiness of a stored cell read raw by
`localStorage.getItem` (a `json` cell stands for a nonempty serialized
string, hence truthy). -/
def storedTruthy : StoredVal → Bool
  | .raw s => s != ""
  | .json _ => true

/-- Embedding of `generateAestheticImage` (geminiService.ts lines
189-216).  The cache key `` `img_v6_${btoa(prompt).slice(0, 48)}` `` is
computed before the try/catch, so a `btoa` failure escapes to the caller;
inside the try, any error from the retried provider call is caught and
collapsed to `null`.  A raw cache hit is returned as the stored cell. -/
def generateAestheticImage (provider : ImgProviderOracle)
    (apiKey : Option String) (prompt : String) (s : SvcState) :
    Except JsError (Option StoredVal) × SvcState :=
  match btoa prompt with
  | .error e => (.error e, s)
  | .ok b =>
    let cacheKey := "img_v6_" ++ String.mk (b.toList.take 48)
    match s.storage.getItem cacheKey with
    | some cached =>
      if storedTruthy cached then (.ok (some cached), s)
      else
        let r := retryRequest (imageThunk provider apiKey cacheKey) 5 1000 s
        match r.result with
        | .ok v => (.ok (v.map StoredVal.raw), r.state)
        | .error _ => (.ok none, r.state)
    | none =>
      let r := retryRequest (imageThunk provider apiKey cacheKey) 5 1000 s
      match r.result with
      | .ok v => (.ok (v.map StoredVal.raw), r.state)
      | .error _ => (.ok none, r.state)

/-!
The audio decoder and the speech fetcher.
-/

/-- Reinterpret two little-endian bytes as a signed 16-bit integer. -/
def toInt16 (n : Nat) : Int :=
  let m := n % 65536
  if m < 32768 then (m : Int) else (m : Int) - 65536

/-- The view `new Int16Array(data.buffer)` of a byte list: consecutive
little-endian pairs as signed 16-bit samples; an odd byte length makes the
constructor throw a RangeError (modelled as `none`). -/
def bytesToInt16 : List Nat → Option (List Int)
  | [] => some []
  | [_] => none
  | b0 :: b1 :: rest => (bytesToInt16 rest).map (fun t => toInt16 (b0 + 256 * b1) :: t)

/-- A decoded audio buffer: sample rate, channel count, and one list of
normalized samples per channel. -/
structure AudioBuffer where
  sampleRate : Nat
  numChannels : Nat
  channelData : List (List ℚ)
deriving Repr, DecidableEq

/-- Embedding of `decodeAudioData` (geminiService.ts lines 228-245):
view the bytes as interleaved signed 16-bit samples, allocate
`frameCount = dataInt16.length / numChannels` frames, and deinterleave
with `channelData[i] = dataInt16[i * numChannels + channel] / 32768`.
Normalized samples are exact rationals, written with `Rat.divInt` (integer
division into ℚ); every value `n / 32768` with `|n| < 32768` is an exact
binary64 float, so nothing is lost.  `none`
models the RangeError thrown by the `Int16Array` view on an odd byte
count. -/
def decodeAudioData (data : List Nat) (sampleRate numChannels : Nat) :
    Option AudioBuffer :=
  match bytesToInt16 data with
  | none => none
  | some dataInt16 =>
    let frameCount := dataInt16.length / numChannels
    some { sampleRate := sampleRate, numChannels := numChannels,
           channelData :=
             (List.range numChannels).map (fun channel =>
               (List.range frameCount).map (fun i =>
                 Rat.divInt (dataInt16.getD (i * numChannels + channel) 0) 32768)) }

/-- Outcome of one speech provider call: success carries
`response.candidates?.[0]?.content?.parts?.[0]?.inlineData?.data` (a
possibly absent base64 string); failure carries the thrown error. -/
inductive TtsResult where
  | ok (base64Audio : Option String)
  | fail (e : JsError)

/-- A speech provider oracle, indexed like `ProviderOracle`. -/
def TtsOracle := Option String → Nat → TtsResult

/-- A speech provider call that does not produce a playable buffer: it
throws, or its inline payload is absent or empty, or the payload fails
base64 decoding, or the decoded bytes fail the PCM view (odd byte
count). -/
def ttsCallNoAudio : TtsResult → Prop
  | .fail _ => True
  | .ok none => True
  | .ok (some b64) =>
      b64 = "" ∨ (∃ e, decodeBase64 b64 = .error e) ∨
      (∃ bytes, decodeBase64 b64 = .ok bytes ∧
        decodeAudioData bytes 24000 1 = none)

/-- World state of the speech fetcher: the process-lifetime in-memory
`audioCache` Map (newest binding first) and the provider call counter. -/
structure SpeechState where
  audioCache : List (String × AudioBuffer)
  providerCalls : Nat

/-- The in-memory key of `generateSpeech` (geminiService.ts line 248):
`btoa(text.slice(0, 100) + text.length + (isSummary ? '1' : '0'))`,
computed before the try/catch. -/
def speechHash (text : String) (isSummary : Bool) : Except JsError String :=
  btoa (String.mk (text.toList.take 100) ++ toString text.toList.length ++
        (if isSummary then "1" else "0"))

/-- Embedding of `generateSpeech` (geminiService.ts lines 247-279): a
cached buffer for the hash is returned at once; otherwise one provider
call is made (note: no `retryRequest` here), an absent or empty inline
payload yields `null`, the payload is base64-decoded and PCM-decoded at
24000 Hz mono, the buffer is cached under the hash and returned; any error
inside the try is caught and collapsed to `null`.  The hash computation
itself sits before the try, so a `btoa` failure escapes to the caller. -/
def generateSpeech (provider : TtsOracle) (apiKey : Option String)
    (text : String) (isSummary : Bool) (s : SpeechState) :
    Except JsError (Option AudioBuffer) × SpeechState :=
  match speechHash text isSummary with
  | .error e => (.error e, s)
  | .ok hash =>
    match s.audioCache.find? (fun kv => kv.1 == hash) with
    | some kv => (.ok (some kv.2), s)
    | none =>
      let s1 : SpeechState := { s with providerCalls := s.providerCalls + 1 }
      match provider apiKey s.providerCalls with
      | .fail _ => (.ok none, s1)
      | .ok none => (.ok none, s1)
      | .ok (some b64) =>
        if b64 == "" then (.ok none, s1)
        else
          match decodeBase64 b64 with
          | .error _ => (.ok none, s1)
          | .ok audioBytes =>
            match decodeAudioData audioBytes 24000 1 with
            | none => (.ok none, s1)
            | some buffer =>
              (.ok (some buffer),
               { s1 with audioCache := (hash, buffer) :: s1.audioCache })

/-!
Theorems about the retry executor.
-/

/-- A successful thunk invocation ends the run at once. -/
lemma retryRequest_ok {σ α : Type} (fn : σ → Except JsError α × σ)
    (retries delay : Nat) (s s1 : σ) (v : α) (h : fn s = (.ok v, s1)) :
    retryRequest fn retries delay s = ⟨.ok v, s1, 1, []⟩ := by
  cases retries <;> simp [retryRequest, h]

/-- A retryable failure with retries remaining awaits `delay` and
recurses with `delay * 2`. -/
lemma retryRequest_retry {σ α : Type} (fn : σ → Except JsError α × σ)
    (r delay : Nat) (s s1 : σ) (e : JsError) (h : fn s = (.error e, s1))
    (hr : isRetryable e = true) :
    retryRequest fn (r + 1) delay s =
      ⟨(retryRequest fn r (delay * 2) s1).result,
       (retryRequest fn r (delay * 2) s1).state,
       (retryRequest fn r (delay * 2) s1).calls + 1,
       delay :: (retryRequest fn r (delay * 2) s1).delays⟩ := by
  simp [retryRequest, h, hr]

/-- A failure with no retries remaining is rethrown. -/
lemma retryRequest_out {σ α : Type} (fn : σ → Except JsError α × σ)
    (delay : Nat) (s s1 : σ) (e : JsError) (h : fn s = (.error e, s1)) :
    retryRequest fn 0 delay s = ⟨.error e, s1, 1, []⟩ := by
  simp [retryRequest, h]

/-- A terminal (non-retryable) failure is rethrown at once. -/
lemma retryRequest_terminal {σ α : Type} (fn : σ → Except JsError α × σ)
    (retries delay : Nat) (s s1 : σ) (e : JsError) (h : fn s = (.error e, s1))
    (hr : isRetryable e = false) :
    retryRequest fn retries delay s = ⟨.error e, s1, 1, []⟩ := by
  cases retries <;> simp [retryRequest, h, hr]

/-- C4: under the policy `maxRetries = 5, initialDelay = 1000,
backoffMultiplier = 2`, an operation that fails with a retryable error on
its first four invocations and succeeds on the fifth is retried exactly 4
times, with backoff delays `1000, 2000, 4000, 8000` awaited before the
successive retries (so the delay before retry `n` is
`1000 * 2 ^ (n - 1)`), and the executor returns the operation's success
value. -/
theorem retry_backoff_schedule {α : Type} (g : Nat → Except JsError α)
    (v : α) (e : Nat → JsError)
    (hfail : ∀ k, k < 4 → g k = .error (e k) ∧ isRetryable (e k) = true)
    (hok : g 4 = .ok v) :
    retryRequest (oracleFn g) 5 1000 0 =
      ⟨.ok v, 5, 5, [1000, 2000, 4000, 8000]⟩ := by
  obtain ⟨h0, r0⟩ := hfail 0 (by omega)
  obtain ⟨h1, r1⟩ := hfail 1 (by omega)
  obtain ⟨h2, r2⟩ := hfail 2 (by omega)
  obtain ⟨h3, r3⟩ := hfail 3 (by omega)
  rw [show (5 : Nat) = 4 + 1 from rfl,
      retryRequest_retry (oracleFn g) 4 1000 0 1 (e 0)
        (by simp [oracleFn, h0]) r0,
      show (4 : Nat) = 3 + 1 from rfl,
      retryRequest_retry (oracleFn g) 3 (1000 * 2) 1 2 (e 1)
        (by simp [oracleFn, h1]) r1,
      show (3 : Nat) = 2 + 1 from rfl,
      retryRequest_retry (oracleFn g) 2 (1000 * 2 * 2) 2 3 (e 2)
        (by simp [oracleFn, h2]) r2,
      show (2 : Nat) = 1 + 1 from rfl,
      retryRequest_retry (oracleFn g) 1 (1000 * 2 * 2 * 2) 3 4 (e 3)
        (by simp [oracleFn, h3]) r3,
      retryRequest_ok (oracleFn g) 1 (1000 * 2 * 2 * 2 * 2) 4 5 v
        (by simp [oracleFn, hok])]

/-- Witness for C4 at a concrete stub: the operation fails with status
429 on calls 0-3 and succeeds with value 7 on call 4. -/
theorem retry_backoff_schedule_witness :
    retryRequest (oracleFn (fun n =>
        if n < 4 then Except.error (JsError.api (some 429))
        else Except.ok 7)) 5 1000 0 =
      ⟨.ok 7, 5, 5, [1000, 2000, 4000, 8000]⟩ :=
  retry_backoff_schedule _ 7 (fun _ => JsError.api (some 429))
    (fun k hk => ⟨by rw [if_pos hk], rfl⟩) rfl

/-- C5: under `maxRetries = 5`, an operation that always fails with a
retryable error (status 429, 503 or 500) is invoked exactly 6 times
(1 initial attempt + 5 retries), and the error finally propagated is the
failure observed on the last (6th) invocation. -/
theorem retry_exhaustion {α : Type} (g : Nat → Except JsError α)
    (e : Nat → JsError)
    (hfail : ∀ k, g k = .error (e k) ∧ isRetryable (e k) = true) :
    retryRequest (oracleFn g) 5 1000 0 =
      ⟨.error (e 5), 6, 6, [1000, 2000, 4000, 8000, 16000]⟩ := by
  obtain ⟨h0, r0⟩ := hfail 0
  obtain ⟨h1, r1⟩ := hfail 1
  obtain ⟨h2, r2⟩ := hfail 2
  obtain ⟨h3, r3⟩ := hfail 3
  obtain ⟨h4, r4⟩ := hfail 4
  obtain ⟨h5, r5⟩ := hfail 5
  rw [show (5 : Nat) = 4 + 1 from rfl,
      retryRequest_retry (oracleFn g) 4 1000 0 1 (e 0)
        (by simp [oracleFn, h0]) r0,
      show (4 : Nat) = 3 + 1 from rfl,
      retryRequest_retry (oracleFn g) 3 (1000 * 2) 1 2 (e 1)
        (by simp [oracleFn, h1]) r1,
      show (3 : Nat) = 2 + 1 from rfl,
      retryRequest_retry (oracleFn g) 2 (1000 * 2 * 2) 2 3 (e 2)
        (by simp [oracleFn, h2]) r2,
      show (2 : Nat) = 1 + 1 from rfl,
      retryRequest_retry (oracleFn g) 1 (1000 * 2 * 2 * 2) 3 4 (e 3)
        (by simp [oracleFn, h3]) r3,
      show (1 : Nat) = 0 + 1 from rfl,
      retryRequest_retry (oracleFn g) 0 (1000 * 2 * 2 * 2 * 2) 4 5 (e 4)
        (by simp [oracleFn, h4]) r4,
      retryRequest_out (oracleFn g) (1000 * 2 * 2 * 2 * 2 * 2) 5 6 (e 5)
        (by simp [oracleFn, h5])]

/-- Witness for C5 at a concrete stub that always fails with status
503. -/
theorem retry_exhaustion_witness :
    retryRequest (oracleFn (fun _ =>
        (Except.error (JsError.api (some 503)) : Except JsError Nat)))
      5 1000 0 =
      ⟨.error (.api (some 503)), 6, 6, [1000, 2000, 4000, 8000, 16000]⟩ :=
  retry_exhaustion _ (fun _ => JsError.api (some 503))
    (fun _ => ⟨rfl, rfl⟩)

/-- C6: an operation whose failure carries any status other than 429, 503
or 500 (including a malformed-request status and an absent status) is
invoked exactly once: the error propagates immediately, with no backoff
delay and no retry. -/
theorem retry_terminal_short_circuit {α : Type} (g : Nat → Except JsError α)
    (st : Option Nat)
    (h429 : st ≠ some 429) (h503 : st ≠ some 503) (h500 : st ≠ some 500)
    (hfail : g 0 = .error (.api st)) :
    retryRequest (oracleFn g) 5 1000 0 = ⟨.error (.api st), 1, 1, []⟩ := by
  have hterm : isRetryable (JsError.api st) = false := by
    simp only [isRetryable, errStatus, Bool.or_eq_false_iff,
      beq_eq_false_iff_ne, ne_eq]
    exact ⟨⟨h429, h503⟩, h500⟩
  exact retryRequest_terminal (oracleFn g) 5 1000 0 1 (.api st)
    (by simp [oracleFn, hfail]) hterm

/-- Witness for C6 at a concrete stub failing with a malformed-request
status 400. -/
theorem retry_terminal_short_circuit_witness :
    retryRequest (oracleFn (fun _ =>
        (Except.error (JsError.api (some 400)) : Except JsError Nat)))
      5 1000 0 =
      ⟨.error (.api (some 400)), 1, 1, []⟩ :=
  retry_terminal_short_circuit _ (some 400)
    (by decide) (by decide) (by decide) rfl

/-!
Theorems about the structured fetchers: cache short-circuit (C7) and the
part-number override (C8).
-/

/-- C7 (amended): a cache entry parsing to a JS-truthy value short-circuits
the notes and question-set fetchers: the cached value is returned at once
and the world state — in particular the provider call count — is left
untouched. -/
theorem cache_hit_short_circuit :
    (∀ (provider : ProviderOracle) (apiKey : Option String)
        (subjectId chapterTitle : String) (part : Int) (s : SvcState)
        (c : JVal),
        getCachedData s.storage (noteCacheKey subjectId chapterTitle part) =
          some c →
        truthy c = true →
        generateChapterNotes provider apiKey subjectId chapterTitle part s =
          (.ok c, s)) ∧
    (∀ (provider : ProviderOracle) (apiKey : Option String)
        (subjectId : String) (s : SvcState) (c : JVal),
        getCachedData s.storage (premiumCacheKey subjectId) = some c →
        truthy c = true →
        generatePremiumQuestions provider apiKey subjectId s = (.ok c, s)) := by
  constructor
  · intro provider apiKey subjectId chapterTitle part s c hcache ht
    simp [generateChapterNotes, truthyHit, hcache, ht]
  · intro provider apiKey subjectId s c hcache ht
    simp [generatePremiumQuestions, truthyHit, hcache, ht]

/-- Witness for C7 (amended) on concrete truthy cache entries, for both
fetchers; the unchanged state shows zero provider calls. -/
theorem cache_hit_short_circuit_witness :
    generateChapterNotes (fun _ _ => .fail (.api none)) (some "key")
        "physics" "Optics" 1
        ⟨[(noteCacheKey "physics" "Optics" 1,
           .json (.jobj [("chapterTitle", .jstr "Optics")]))], false, 0⟩ =
      (.ok (.jobj [("chapterTitle", .jstr "Optics")]),
       ⟨[(noteCacheKey "physics" "Optics" 1,
          .json (.jobj [("chapterTitle", .jstr "Optics")]))], false, 0⟩) ∧
    generatePremiumQuestions (fun _ _ => .fail (.api none)) (some "key")
        "physics"
        ⟨[(premiumCacheKey "physics", .json (.jarr [.jstr "q1"]))], false, 0⟩ =
      (.ok (.jarr [.jstr "q1"]),
       ⟨[(premiumCacheKey "physics", .json (.jarr [.jstr "q1"]))], false, 0⟩) :=
  ⟨cache_hit_short_circuit.1 _ _ _ _ _ _ _ rfl rfl,
   cache_hit_short_circuit.2 _ _ _ _ _ rfl rfl⟩

/-- C7 (counterexample to the claim as stated): the cache key holds a
present, parseable entry — the JSON text `false` — yet the notes fetcher
does not return it and invokes the provider once (`providerCalls` goes
from 0 to 1), because the code tests JS truthiness of the parsed value,
not presence. -/
theorem cache_hit_short_circuit_counterexample :
    (getCachedData
        [(noteCacheKey "physics" "Optics" 1, StoredVal.json (.jbool false))]
        (noteCacheKey "physics" "Optics" 1) = some (.jbool false)) ∧
    (generateChapterNotes
        (fun _ _ => .ok (some (.json (.jobj [("chapterTitle", .jstr "T")]))))
        (some "key") "physics" "Optics" 1
        ⟨[(noteCacheKey "physics" "Optics" 1, StoredVal.json (.jbool false))],
         false, 0⟩).2.providerCalls = 1 :=
  ⟨rfl, rfl⟩

/-- Any success of a `retryRequest` run is a success of its thunk at some
intermediate state. -/
lemma retryRequest_ok_inv {σ α : Type} (fn : σ → Except JsError α × σ) :
    ∀ (retries delay : Nat) (s : σ) (v : α),
      (retryRequest fn retries delay s).result = .ok v →
      ∃ s1 s2, fn s1 = (.ok v, s2) := by
  intro retries
  induction retries with
  | zero =>
    intro delay s v h
    rcases hfn : fn s with ⟨res, t⟩
    rcases res with e | w
    · simp [retryRequest, hfn] at h
    · simp [retryRequest, hfn] at h
      exact ⟨s, t, by rw [hfn, h]⟩
  | succ r ih =>
    intro delay s v h
    rcases hfn : fn s with ⟨res, t⟩
    rcases res with e | w
    · by_cases hr : isRetryable e
      · simp [retryRequest, hfn, hr] at h
        exact ih (delay * 2) t v h
      · simp [retryRequest, hfn, hr] at h
    · simp [retryRequest, hfn] at h
      exact ⟨s, t, by rw [hfn, h]⟩

/-- Every value returned by the notes thunk is
`{ ...parsed, part }` for some parsed response. -/
lemma notesThunk_ok_shape (provider : ProviderOracle) (apiKey : Option String)
    (cacheKey : String) (part : Int) (s1 s2 : SvcState) (v : JVal)
    (h : notesThunk provider apiKey cacheKey part s1 = (.ok v, s2)) :
    ∃ parsed, v = .jobj (spreadWithPart (jsObjectSpread parsed) part) := by
  rcases hp : provider apiKey s1.providerCalls with t | e
  · rcases hparse : parseTextOrDefault t (.jobj []) with _ | parsed
    · simp [notesThunk, hp, hparse] at h
    · by_cases hq : s1.quotaExhausted
      · simp [notesThunk, hp, hparse, hq] at h
      · simp [notesThunk, hp, hparse, hq] at h
        exact ⟨parsed, h.1.symm⟩
  · simp [notesThunk, hp] at h

/-- In the field list of `{ ...fs, part }` with `part` already present,
looking up `part` yields the overriding value. -/
lemma find?_map_setPart (part : Int) (fs : List (String × JVal))
    (h : fs.any (fun kv => kv.1 == "part") = true) :
    ((fs.map (fun kv =>
        if kv.1 == "part" then (kv.1, JVal.jnum part) else kv)).find?
      (fun kv => kv.1 == "part")).map (·.2) = some (JVal.jnum part) := by
  induction fs with
  | nil => simp at h
  | cons hd tl ih =>
    rcases hd with ⟨k, w⟩
    rcases hph : (k == "part") with _ | _
    · have htl : tl.any (fun kv => kv.1 == "part") = true := by
        simpa [List.any_cons, hph] using h
      simpa [List.find?, hph] using ih htl
    · have hk : k = "part" := by simpa using hph
      subst hk
      simp [List.find?]

/-- In the field list of `{ ...fs, part }` with no `part` field in `fs`,
looking up `part` finds the appended value. -/
lemma find?_append_part (part : Int) (fs : List (String × JVal))
    (h : fs.any (fun kv => kv.1 == "part") = false) :
    ((fs ++ [("part", JVal.jnum part)]).find?
      (fun kv => kv.1 == "part")).map (·.2) = some (JVal.jnum part) := by
  induction fs with
  | nil => simp [List.find?]
  | cons hd tl ih =>
    rcases hd with ⟨k, w⟩
    have hph : (k == "part") = false := by
      simp only [List.any_cons, Bool.or_eq_false_iff] at h
      exact h.1
    have htl : tl.any (fun kv => kv.1 == "part") = false := by
      simp only [List.any_cons, Bool.or_eq_false_iff] at h
      exact h.2
    simpa [List.find?, hph] using ih htl

/-- Looking up `part` on `{ ...parsed, part }` always yields the
caller-supplied value. -/
lemma getField_spreadWithPart (fs : List (String × JVal)) (part : Int) :
    getField (.jobj (spreadWithPart fs part)) "part" = some (.jnum part) := by
  unfold getField spreadWithPart
  rcases hany : fs.any (fun kv => kv.1 == "part") with _ | _
  · rw [if_neg (by simp)]
    exact find?_append_part part fs hany
  · rw [if_pos rfl]
    exact find?_map_setPart part fs hany

/-- C8: on a cache miss, whatever document the notes fetch returns has its
`part` field equal to the caller-supplied part, regardless of any `part`
value declared in the provider's parsed response. -/
theorem notes_part_override (provider : ProviderOracle) (apiKey : Option String)
    (subjectId chapterTitle : String) (part : Int) (s : SvcState)
    (hmiss : getCachedData s.storage
        (noteCacheKey subjectId chapterTitle part) = none)
    (v : JVal)
    (hok : (generateChapterNotes provider apiKey subjectId chapterTitle
        part s).1 = .ok v) :
    getField v "part" = some (.jnum part) := by
  simp only [generateChapterNotes, hmiss, truthyHit] at hok
  obtain ⟨t1, t2, hthunk⟩ := retryRequest_ok_inv _ 5 1000 s v hok
  obtain ⟨parsed, hv⟩ := notesThunk_ok_shape _ _ _ _ _ _ _ hthunk
  rw [hv]
  exact getField_spreadWithPart _ part

/-- Witness for C8: a notes fetch for part 2 whose provider response
declares `part: 1` returns a document whose `part` field is 2. -/
theorem notes_part_override_witness :
    (generateChapterNotes
        (fun _ _ => .ok (some (.json (.jobj
          [("part", .jnum 1), ("chapterTitle", .jstr "Optics")]))))
        (some "key") "physics" "Optics" 2 ⟨[], false, 0⟩).1 =
      .ok (.jobj [("part", .jnum 2), ("chapterTitle", .jstr "Optics")]) ∧
    getField (.jobj [("part", .jnum 2), ("chapterTitle", .jstr "Optics")])
        "part" = some (.jnum 2) :=
  ⟨rfl,
   notes_part_override
     (fun _ _ => .ok (some (.json (.jobj
       [("part", .jnum 1), ("chapterTitle", .jstr "Optics")]))))
     (some "key") "physics" "Optics" 2 ⟨[], false, 0⟩ rfl _ rfl⟩

/-!
Theorems about the cache write under quota exhaustion (C1) and the absent
credential guard (C2).
-/

/-- C1 (counterexample to the claim as stated): with quota exhausted and
an image-cache key (`img_v6_` prefix) present in storage, a notes fetch
whose provider call succeeds does not delete the image key, does not
retry the write, and does not return the payload — the quota error
propagates and the storage is left exactly as it was. -/
theorem quota_eviction_counterexample :
    (generateChapterNotes
        (fun _ _ => .ok (some (.json (.jobj [("chapterTitle", .jstr "T")]))))
        (some "key") "physics" "Optics" 1
        ⟨[("img_v6_AAAA", StoredVal.raw "data:image/png;base64,AAAA")],
         true, 0⟩).1 = .error .quotaExceeded ∧
    (generateChapterNotes
        (fun _ _ => .ok (some (.json (.jobj [("chapterTitle", .jstr "T")]))))
        (some "key") "physics" "Optics" 1
        ⟨[("img_v6_AAAA", StoredVal.raw "data:image/png;base64,AAAA")],
         true, 0⟩).2.storage =
      [("img_v6_AAAA", StoredVal.raw "data:image/png;base64,AAAA")] :=
  ⟨rfl, rfl⟩

/-- C1 (amended): when the underlying storage rejects the cache write
because its quota is exhausted, no remediation happens: no stored key is
deleted, the write is not retried, and the quota error propagates to the
caller of the notes / question-set fetch — the fetch fails instead of
returning the payload it produced.  The final state differs from the
initial one only in the provider call count. -/
theorem quota_failure_propagates :
    (∀ (provider : ProviderOracle) (apiKey : Option String)
        (subjectId chapterTitle : String) (part : Int) (s : SvcState)
        (t : Option StoredVal) (parsed : JVal),
        getCachedData s.storage (noteCacheKey subjectId chapterTitle part) =
          none →
        s.quotaExhausted = true →
        provider apiKey s.providerCalls = .ok t →
        parseTextOrDefault t (.jobj []) = some parsed →
        generateChapterNotes provider apiKey subjectId chapterTitle part s =
          (.error .quotaExceeded,
           { s with providerCalls := s.providerCalls + 1 })) ∧
    (∀ (provider : ProviderOracle) (apiKey : Option String)
        (subjectId : String) (s : SvcState)
        (t : Option StoredVal) (parsed : JVal),
        getCachedData s.storage (premiumCacheKey subjectId) = none →
        s.quotaExhausted = true →
        provider apiKey s.providerCalls = .ok t →
        parseTextOrDefault t (.jarr []) = some parsed →
        generatePremiumQuestions provider apiKey subjectId s =
          (.error .quotaExceeded,
           { s with providerCalls := s.providerCalls + 1 })) := by
  constructor
  · intro provider apiKey subjectId chapterTitle part s t parsed
    intro hmiss hq hp hparse
    simp only [generateChapterNotes, hmiss, truthyHit]
    rw [retryRequest_terminal _ 5 1000 s
      { s with providerCalls := s.providerCalls + 1 } .quotaExceeded
      (by simp [notesThunk, hp, hparse, hq]) rfl]
  · intro provider apiKey subjectId s t parsed
    intro hmiss hq hp hparse
    simp only [generatePremiumQuestions, hmiss, truthyHit]
    rw [retryRequest_terminal _ 5 1000 s
      { s with providerCalls := s.providerCalls + 1 } .quotaExceeded
      (by simp [premiumThunk, hp, hparse, hq]) rfl]

/-- Witness for C1 (amended) on concrete states with exhausted quota, for
both structured fetchers. -/
theorem quota_failure_propagates_witness :
    generateChapterNotes
        (fun _ _ => .ok (some (.json (.jobj [("chapterTitle", .jstr "T")]))))
        (some "key") "maths" "Vectors" 3 ⟨[], true, 0⟩ =
      (.error .quotaExceeded, ⟨[], true, 1⟩) ∧
    generatePremiumQuestions
        (fun _ _ => .ok (some (.json (.jarr [.jstr "q1"]))))
        (some "key") "maths" ⟨[], true, 0⟩ =
      (.error .quotaExceeded, ⟨[], true, 1⟩) :=
  ⟨quota_failure_propagates.1 _ (some "key") "maths" "Vectors" 3
     ⟨[], true, 0⟩ _ _ rfl rfl rfl rfl,
   quota_failure_propagates.2 _ (some "key") "maths"
     ⟨[], true, 0⟩ _ _ rfl rfl rfl rfl⟩

/-- C2 (code bug): no credential guard exists.  With the credential
absent, a cache-missing notes fetch still invokes the provider (the call
count reaches 1) and, when the provider call succeeds, the fetch succeeds
— no distinguished missing-credential error is produced anywhere; the
same holds for the speech fetcher. -/
theorem missing_credential_not_guarded :
    ((generateChapterNotes
        (fun _ _ => .ok (some (.json (.jobj [("chapterTitle", .jstr "T")]))))
        none "physics" "Optics" 1 ⟨[], false, 0⟩).1 =
      .ok (.jobj [("chapterTitle", .jstr "T"), ("part", .jnum 1)]) ∧
     (generateChapterNotes
        (fun _ _ => .ok (some (.json (.jobj [("chapterTitle", .jstr "T")]))))
        none "physics" "Optics" 1 ⟨[], false, 0⟩).2.providerCalls = 1) ∧
    ((generateSpeech (fun _ _ => .ok (some "AEA=")) none "hello" false
        ⟨[], 0⟩).1 = .ok (some ⟨24000, 1, [[Rat.divInt 1 2]]⟩) ∧
     (generateSpeech (fun _ _ => .ok (some "AEA=")) none "hello" false
        ⟨[], 0⟩).2.providerCalls = 1) :=
  ⟨⟨rfl, rfl⟩, ⟨rfl, rfl⟩⟩

/-!
Theorems about the image and speech fetchers (C3).
-/

/-- Every character emitted by `Nat.digitChar` is Latin-1. -/
lemma digitChar_latin1 : ∀ m : Nat, (Nat.digitChar m).toNat < 256
  | 0 => by decide
  | 1 => by decide
  | 2 => by decide
  | 3 => by decide
  | 4 => by decide
  | 5 => by decide
  | 6 => by decide
  | 7 => by decide
  | 8 => by decide
  | 9 => by decide
  | 10 => by decide
  | 11 => by decide
  | 12 => by decide
  | 13 => by decide
  | 14 => by decide
  | 15 => by decide
  | n + 16 => by
    rw [show Nat.digitChar (n + 16) = '*' from rfl]
    decide

/-- Digit accumulation preserves being Latin-1. -/
lemma toDigitsCore_latin1 (b : Nat) :
    ∀ (fuel n : Nat) (ds : List Char), (∀ c ∈ ds, c.toNat < 256) →
      ∀ c ∈ Nat.toDigitsCore b fuel n ds, c.toNat < 256 := by
  intro fuel
  induction fuel with
  | zero =>
    intro n ds hds c hc
    simp only [Nat.toDigitsCore] at hc
    exact hds c hc
  | succ f ih =>
    intro n ds hds c hc
    simp only [Nat.toDigitsCore] at hc
    have hcons : ∀ x ∈ Nat.digitChar (n % b) :: ds, x.toNat < 256 := by
      intro x hx
      rcases List.mem_cons.mp hx with rfl | hx
      · exact digitChar_latin1 _
      · exact hds x hx
    split at hc
    · exact hcons c hc
    · exact ih (n / b) (Nat.digitChar (n % b) :: ds) hcons c hc

/-- The decimal rendering of a natural number is Latin-1. -/
lemma natRepr_latin1 (n : Nat) : ∀ c ∈ (Nat.repr n).data, c.toNat < 256 := by
  intro c hc
  exact toDigitsCore_latin1 10 (n + 1) n [] (by simp) c hc

/-- `btoa` succeeds on any Latin-1 string. -/
lemma btoa_ok_of_latin1 (s : String) (h : ∀ c ∈ s.data, c.toNat < 256) :
    ∃ b, btoa s = .ok b := by
  unfold btoa
  rw [if_pos]
  · exact ⟨_, rfl⟩
  · rw [List.all_eq_true]
    intro c hc
    simp only [List.mem_map] at hc
    obtain ⟨ch, hch, rfl⟩ := hc
    simpa using h ch hch

/-- The speech hash computation succeeds on any Latin-1 text: its `btoa`
argument consists of a prefix of the text, decimal digits of the length,
and an ASCII flag. -/
lemma speechHash_ok_of_latin1 (text : String) (isSummary : Bool)
    (h : ∀ c ∈ text.data, c.toNat < 256) :
    ∃ b, speechHash text isSummary = .ok b := by
  unfold speechHash
  apply btoa_ok_of_latin1
  intro c hc
  simp only [String.data_append] at hc
  rcases List.mem_append.mp hc with hc1 | hc2
  · rcases List.mem_append.mp hc1 with hc3 | hc4
    · exact h c (List.take_subset 100 text.data hc3)
    · exact natRepr_latin1 _ c hc4
  · rcases isSummary with _ | _ <;> simp_all

/-- C3 (counterexample to the claim as stated): the image fetcher raises
an error to its caller for the prompt `"π"` — the cache-key computation
`btoa(prompt)` sits before the try/catch and throws on the non-Latin-1
character, so the fetch does not return an absent result.  (The app's own
system instruction mandates symbols such as π and Δ in generated
content.) -/
theorem image_fault_tolerance_counterexample :
    generateAestheticImage (fun _ _ => .ok []) (some "key") "π"
        ⟨[], false, 0⟩ =
      (.error .invalidCharacter, ⟨[], false, 0⟩) := rfl

/-- Under the failure conditions — exhausted storage quota, or every
provider call lacking an inline image — no run of the retried image thunk
can end with a present payload: each call either throws or resolves to
`null`, and a successful call with inline data would hit the quota error
on its cache write. -/
lemma image_run_no_payload (provider : ImgProviderOracle)
    (apiKey : Option String) (key : String) :
    ∀ (retries delay : Nat) (s : SvcState),
      (s.quotaExhausted = true ∨ ∀ n, imgCallNoImage (provider apiKey n)) →
      ∀ d, (retryRequest (imageThunk provider apiKey key)
          retries delay s).result ≠ .ok (some d) := by
  intro retries
  induction retries with
  | zero =>
    intro delay s hs d
    rcases hp : provider apiKey s.providerCalls with parts | _ | e
    · rcases hfs : parts.findSome? id with _ | d0
      · rw [retryRequest_ok _ 0 delay s
          { s with providerCalls := s.providerCalls + 1 } none
          (by simp [imageThunk, hp, hfs])]
        simp
      · rcases hs with hq | hno
        · rw [retryRequest_out _ delay s
            { s with providerCalls := s.providerCalls + 1 } .quotaExceeded
            (by simp [imageThunk, hp, hfs, hq])]
          simp
        · have hcall := hno s.providerCalls
          rw [hp] at hcall
          simp [imgCallNoImage, hfs] at hcall
    · rw [retryRequest_out _ delay s
        { s with providerCalls := s.providerCalls + 1 } .typeFailure
        (by simp [imageThunk, hp])]
      simp
    · rw [retryRequest_out _ delay s
        { s with providerCalls := s.providerCalls + 1 } e
        (by simp [imageThunk, hp])]
      simp
  | succ r ih =>
    intro delay s hs d
    have hs1 : ({ s with providerCalls := s.providerCalls + 1 }
          : SvcState).quotaExhausted = true ∨
        ∀ n, imgCallNoImage (provider apiKey n) := by
      rcases hs with hq | hno
      · exact Or.inl hq
      · exact Or.inr hno
    rcases hp : provider apiKey s.providerCalls with parts | _ | e
    · rcases hfs : parts.findSome? id with _ | d0
      · rw [retryRequest_ok _ (r + 1) delay s
          { s with providerCalls := s.providerCalls + 1 } none
          (by simp [imageThunk, hp, hfs])]
        simp
      · rcases hs with hq | hno
        · rw [retryRequest_terminal _ (r + 1) delay s
            { s with providerCalls := s.providerCalls + 1 } .quotaExceeded
            (by simp [imageThunk, hp, hfs, hq]) rfl]
          simp
        · have hcall := hno s.providerCalls
          rw [hp] at hcall
          simp [imgCallNoImage, hfs] at hcall
    · rw [retryRequest_terminal _ (r + 1) delay s
        { s with providerCalls := s.providerCalls + 1 } .typeFailure
        (by simp [imageThunk, hp]) rfl]
      simp
    · by_cases hr : isRetryable e
      · rw [retryRequest_retry _ r delay s
          { s with providerCalls := s.providerCalls + 1 } e
          (by simp [imageThunk, hp]) hr]
        simpa using ih (delay * 2)
          { s with providerCalls := s.providerCalls + 1 } hs1 d
      · have hterm : isRetryable e = false := by
          cases hre : isRetryable e
          · rfl
          · exact absurd hre hr
        rw [retryRequest_terminal _ (r + 1) delay s
          { s with providerCalls := s.providerCalls + 1 } e
          (by simp [imageThunk, hp]) hterm]
        simp

/-- C3 (amended): for prompts / texts all of whose characters are
Latin-1 (code point below 256), the image and speech fetchers never raise
an error to their caller, and every failure yields the explicit absent
(`null`) result: for the image fetcher, whenever the cache misses and the
quota is exhausted or no provider call produces an inline image (provider
error, response without candidates, or no inline part), the outcome is
`ok none`; for the speech fetcher, whenever the cache misses and the
single provider call throws, carries no or an empty inline payload, or
its payload fails base64 or PCM decoding, the outcome is `ok none`.  For
an input with a character above U+00FF the `btoa` cache-key computation
itself throws before the guarded region. -/
theorem image_speech_fault_tolerance :
    (∀ (provider : ImgProviderOracle) (apiKey : Option String)
        (prompt : String) (s : SvcState),
        (∀ c ∈ prompt.data, c.toNat < 256) →
        ∃ v, (generateAestheticImage provider apiKey prompt s).1 = .ok v) ∧
    (∀ (provider : ImgProviderOracle) (apiKey : Option String)
        (prompt : String) (s : SvcState),
        (∀ c ∈ prompt.data, c.toNat < 256) →
        (∀ b cached, btoa prompt = .ok b →
          s.storage.getItem ("img_v6_" ++ String.mk (b.toList.take 48)) =
            some cached → storedTruthy cached = false) →
        (s.quotaExhausted = true ∨ ∀ n, imgCallNoImage (provider apiKey n)) →
        (generateAestheticImage provider apiKey prompt s).1 = .ok none) ∧
    (∀ (provider : TtsOracle) (apiKey : Option String) (text : String)
        (isSummary : Bool) (s : SpeechState),
        (∀ c ∈ text.data, c.toNat < 256) →
        ∃ v, (generateSpeech provider apiKey text isSummary s).1 = .ok v) ∧
    (∀ (provider : TtsOracle) (apiKey : Option String) (text : String)
        (isSummary : Bool) (s : SpeechState),
        (∀ c ∈ text.data, c.toNat < 256) →
        (∀ h, speechHash text isSummary = .ok h →
          s.audioCache.find? (fun kv => kv.1 == h) = none) →
        ttsCallNoAudio (provider apiKey s.providerCalls) →
        (generateSpeech provider apiKey text isSummary s).1 = .ok none) := by
  refine ⟨?_, ?_, ?_, ?_⟩
  · intro provider apiKey prompt s h
    obtain ⟨b, hb⟩ := btoa_ok_of_latin1 prompt h
    simp only [generateAestheticImage, hb]
    rcases hget : s.storage.getItem ("img_v6_" ++ String.mk (b.toList.take 48))
      with _ | cached
    · rcases hres : (retryRequest (imageThunk provider apiKey
          ("img_v6_" ++ String.mk (b.toList.take 48))) 5 1000 s).result
        with e | v
      · exact ⟨none, by simp [hres]⟩
      · exact ⟨v.map StoredVal.raw, by simp [hres]⟩
    · by_cases ht : storedTruthy cached
      · exact ⟨some cached, by simp [ht]⟩
      · rcases hres : (retryRequest (imageThunk provider apiKey
            ("img_v6_" ++ String.mk (b.toList.take 48))) 5 1000 s).result
          with e | v
        · exact ⟨none, by simp [ht, hres]⟩
        · exact ⟨v.map StoredVal.raw, by simp [ht, hres]⟩
  · intro provider apiKey prompt s h hmiss hfail
    obtain ⟨b, hb⟩ := btoa_ok_of_latin1 prompt h
    simp only [generateAestheticImage, hb]
    rcases hget : s.storage.getItem ("img_v6_" ++ String.mk (b.toList.take 48))
      with _ | cached
    · rcases hres : (retryRequest (imageThunk provider apiKey
          ("img_v6_" ++ String.mk (b.toList.take 48))) 5 1000 s).result
        with e | v
      · simp [hres]
      · rcases v with _ | d
        · simp [hres]
        · exact absurd hres
            (image_run_no_payload provider apiKey _ 5 1000 s hfail d)
    · have ht : storedTruthy cached = false := hmiss b cached hb hget
      rcases hres : (retryRequest (imageThunk provider apiKey
          ("img_v6_" ++ String.mk (b.toList.take 48))) 5 1000 s).result
        with e | v
      · simp [ht, hres]
      · rcases v with _ | d
        · simp [ht, hres]
        · exact absurd hres
            (image_run_no_payload provider apiKey _ 5 1000 s hfail d)
  · intro provider apiKey text isSummary s h
    obtain ⟨hash, hb⟩ := speechHash_ok_of_latin1 text isSummary h
    simp only [generateSpeech, hb]
    rcases hfind : s.audioCache.find? (fun kv => kv.1 == hash) with _ | kv
    · rcases hp : provider apiKey s.providerCalls with b64opt | e
      · rcases b64opt with _ | b64
        · exact ⟨none, by simp [hfind, hp]⟩
        · by_cases hempty : b64 == ""
          · exact ⟨none, by simp [hfind, hp, hempty]⟩
          · rcases hdec : decodeBase64 b64 with e | audioBytes
            · exact ⟨none, by simp [hfind, hp, hempty, hdec]⟩
            · rcases hbuf : decodeAudioData audioBytes 24000 1 with _ | buffer
              · exact ⟨none, by simp [hfind, hp, hempty, hdec, hbuf]⟩
              · exact ⟨some buffer, by simp [hfind, hp, hempty, hdec, hbuf]⟩
      · exact ⟨none, by simp [hfind, hp]⟩
    · exact ⟨some kv.2, by simp [hfind]⟩
  · intro provider apiKey text isSummary s h hmiss hfail
    obtain ⟨hash, hb⟩ := speechHash_ok_of_latin1 text isSummary h
    have hfind := hmiss hash hb
    simp only [generateSpeech, hb]
    rcases hp : provider apiKey s.providerCalls with b64opt | e
    · rcases b64opt with _ | b64
      · simp [hfind, hp]
      · rw [hp] at hfail
        simp only [ttsCallNoAudio] at hfail
        by_cases hempty : b64 == ""
        · simp [hfind, hp, hempty]
        · rcases hfail with hemp | ⟨e, hdec⟩ | ⟨bytes, hdec, hbuf⟩
          · rw [hemp] at hempty
            simp at hempty
          · simp [hfind, hp, hempty, hdec]
          · simp [hfind, hp, hempty, hdec, hbuf]
    · simp [hfind, hp]

/-- Witness for C3 (amended) at concrete Latin-1 inputs: a
provider that always fails makes the image fetch return the absent
result, and a speech response with no inline payload makes the speech
fetch return the absent result — in both cases without raising. -/
theorem image_speech_fault_tolerance_witness :
    (∃ v, (generateAestheticImage (fun _ _ => .fail (.api (some 500)))
        (some "key") "circuit" ⟨[], false, 0⟩).1 = .ok v) ∧
    ((generateAestheticImage (fun _ _ => .fail (.api (some 500)))
        (some "key") "circuit" ⟨[], false, 0⟩).1 = .ok none) ∧
    (∃ v, (generateSpeech (fun _ _ => .ok none) (some "key") "hello" true
        ⟨[], 0⟩).1 = .ok v) ∧
    ((generateSpeech (fun _ _ => .ok none) (some "key") "hello" true
        ⟨[], 0⟩).1 = .ok none) :=
  ⟨image_speech_fault_tolerance.1 _ _ _ _ (by decide),
   image_speech_fault_tolerance.2.1 _ _ _ _ (by decide)
     (fun b cached _ hget => by simp [Storage.getItem] at hget)
     (Or.inr (fun _ => trivial)),
   image_speech_fault_tolerance.2.2.1 _ _ _ _ _ (by decide),
   image_speech_fault_tolerance.2.2.2 _ _ _ _ _ (by decide)
     (fun _ _ => rfl) trivial⟩

/-!
Theorem about the audio decoder (C9).
-/

/-- Indexing a mapped range. -/
lemma getD_map_range {α : Type} (n c : Nat) (f : Nat → α) (d : α)
    (h : c < n) : ((List.range n).map f).getD c d = f c := by
  rw [List.getD_eq_getElem?_getD, List.getElem?_map, List.getElem?_range h]
  rfl

/-- C9: on well-formed input (even byte count, sample count divisible by
the channel count), the decoder yields a buffer with
`frameCount = totalSamples / numChannels` frames per channel, and the
sample at frame `i`, channel `c` equals the input sample at flat index
`i * numChannels + c`, divided by 32768. -/
theorem audio_decode_correct (data : List Nat) (sampleRate numChannels : Nat)
    (samples : List Int) (hnc : 0 < numChannels)
    (hbytes : bytesToInt16 data = some samples)
    (hdvd : numChannels ∣ samples.length) :
    ∃ buf, decodeAudioData data sampleRate numChannels = some buf ∧
      buf.channelData.length = numChannels ∧
      ∀ c, c < numChannels →
        (buf.channelData.getD c []).length = samples.length / numChannels ∧
        ∀ i, i < samples.length / numChannels →
          (buf.channelData.getD c []).getD i 0 =
            Rat.divInt (samples.getD (i * numChannels + c) 0) 32768 := by
  refine ⟨⟨sampleRate, numChannels,
    (List.range numChannels).map (fun channel =>
      (List.range (samples.length / numChannels)).map (fun i =>
        Rat.divInt (samples.getD (i * numChannels + channel) 0) 32768))⟩,
    by simp [decodeAudioData, hbytes], ?_, ?_⟩
  · simp
  · intro c hc
    constructor
    · rw [getD_map_range _ _ _ _ hc]
      simp
    · intro i hi
      rw [getD_map_range _ _ _ _ hc, getD_map_range _ _ _ _ hi]

/-- Witness for C9 at the concrete input of the spec's test: the 4
interleaved samples `[0, 16384, -16384, 32767]` (as little-endian bytes)
at 2 channels give 2 frames, channel 0 `[0, -16384/32768]` and channel 1
`[16384/32768, 32767/32768]`. -/
theorem audio_decode_correct_witness :
    (0 < 2 ∧
     bytesToInt16 [0, 0, 0, 64, 0, 192, 255, 127] =
       some [0, 16384, -16384, 32767] ∧
     (2 : Nat) ∣ ([0, 16384, -16384, 32767] : List Int).length) ∧
    (∃ buf, decodeAudioData [0, 0, 0, 64, 0, 192, 255, 127] 24000 2 =
        some buf ∧
      buf.channelData.length = 2 ∧
      ∀ c, c < 2 →
        (buf.channelData.getD c []).length =
          ([0, 16384, -16384, 32767] : List Int).length / 2 ∧
        ∀ i, i < ([0, 16384, -16384, 32767] : List Int).length / 2 →
          (buf.channelData.getD c []).getD i 0 =
            Rat.divInt (([0, 16384, -16384, 32767] : List Int).getD
              (i * 2 + c) 0) 32768) :=
  ⟨⟨by decide, by decide, by decide⟩,
   audio_decode_correct [0, 0, 0, 64, 0, 192, 255, 127] 24000 2
     [0, 16384, -16384, 32767] (by decide) (by decide) (by decide)⟩

/-!
Theorem about the speech cache key (C10).
-/

set_option maxRecDepth 8000 in
/-- C10: the speech cache key is not injective in the text.  The two
distinct 101-character texts `"a"*100 ++ "b"` and `"a"*100 ++ "c"` agree
on their first 100 characters and have equal length, so they hash to the
same in-memory key; consequently, after a successful
`generateSpeech` on the first text caches its buffer, a `generateSpeech`
on the second text returns that very buffer — audio of the first text —
with the state (in particular the provider call count) unchanged, i.e.
without any provider call. -/
theorem speech_cache_key_collision :
    (String.mk (List.replicate 100 'a' ++ ['b']) ≠
       String.mk (List.replicate 100 'a' ++ ['c'])) ∧
    speechHash (String.mk (List.replicate 100 'a' ++ ['b'])) false =
      speechHash (String.mk (List.replicate 100 'a' ++ ['c'])) false ∧
    ((generateSpeech (fun _ _ => .ok (some "AEA=")) (some "key")
        (String.mk (List.replicate 100 'a' ++ ['b'])) false ⟨[], 0⟩).1 =
      .ok (some ⟨24000, 1, [[Rat.divInt 1 2]]⟩)) ∧
    generateSpeech (fun _ _ => .ok (some "AEA=")) (some "key")
        (String.mk (List.replicate 100 'a' ++ ['c'])) false
        (generateSpeech (fun _ _ => .ok (some "AEA=")) (some "key")
          (String.mk (List.replicate 100 'a' ++ ['b'])) false ⟨[], 0⟩).2 =
      (.ok (some ⟨24000, 1, [[Rat.divInt 1 2]]⟩),
       (generateSpeech (fun _ _ => .ok (some "AEA=")) (some "key")
         (String.mk (List.replicate 100 'a' ++ ['b'])) false ⟨[], 0⟩).2) :=
  ⟨by decide, rfl, rfl, rfl⟩
